import Mathlib

/-!
Verification of the Crokette-Launcher catalog browser.

The development shallowly embeds the two scripts of the repository:

* the public game-library loader (`GameLibrary`: `init`, `scanGameFolders`,
  `loadGameMetadata`), and
* the admin panel (`AdminPanel`: `saveGame`, `deleteGame`, `updateStats`).

Network fetches are modelled by an explicit environment (`ScanEnv`) mapping
request URLs to responses; a `none` response stands for a thrown error
(network failure or a JSON parse failure inside the same `try` block), and a
`some (ok, body)` response carries the `Response.ok` flag together with the
parsed body.  All definitions are executable and follow the source line by
line; theorems about them settle the frozen claims.
-/

/-- JS falsy-coalescing `v || d` on an optional string: `undefined`/`null`
and the empty string are falsy and select the default. -/
def jsOrS : Option String → String → String
  | none, d => d
  | some s, d => if s = "" then d else s

/-- JS truthiness normalisation of an optional string standing for a value
that may be `undefined`, `null` or `""`: `(v) || null`. -/
def jsNorm : Option String → Option String
  | none => none
  | some s => if s = "" then none else some s

/-- The per-entry metadata document `github.json`: every key is optional
(`name, description, version, downloadUrl, size, comingSoon`). -/
structure Metadata where
  name : Option String := none
  description : Option String := none
  version : Option String := none
  downloadUrl : Option String := none
  size : Option String := none
  comingSoon : Option Bool := none
deriving DecidableEq

/-- The metadata document with every optional key absent. -/
def mEmpty : Metadata := {}

/-- The display record assembled by `loadGameMetadata` (the CatalogEntry). -/
structure GameData where
  id : String
  name : String
  description : String
  version : String
  downloadUrl : String
  size : String
  cover : Option String
  comingSoon : Bool
deriving DecidableEq

/-- One item of the GitHub contents API response: `{type, name}`. -/
structure ApiItem where
  type : String
  name : String
deriving DecidableEq

/-- The fetch oracle for one run of the loader.  `indexFile` is the response
to the `games/index.txt` fetch, `api` the response to the GitHub contents
API fetch, `meta` maps a metadata URL to the fetched-and-parsed `github.json`
response, `cover` maps a cover-candidate URL to the `Response.ok` flag of its
probe.  A `none` value models a thrown error (caught by the source) and the
`Bool` component models `Response.ok`.  `now` is the `Date.now()` timestamp
appended as a cache-busting query parameter. -/
structure ScanEnv where
  indexFile : Option (Bool × String)
  api : Option (Bool × List ApiItem)
  meta : String → Option (Bool × Metadata)
  cover : String → Option Bool
  now : Nat

/-- `init()` line 10: `this.basePath = 'games/'` — the only assignment to
`basePath` in the script. -/
def init_basePath : Option String := some "games/"

/-- Line 73: `const base = this.basePath || 'games/'`. -/
def baseUsed (bp : Option String) : String := jsOrS bp "games/"

/-- Line 74: the metadata URL for one folder. -/
def metadataUrl (base folder : String) (now : Nat) : String :=
  base ++ folder ++ "/github.json?t=" ++ toString now

/-- Lines 89-93: the ordered cover-candidate URLs. -/
def coverCandidates (base folder : String) (now : Nat) : List String :=
  [base ++ folder ++ "/cover.png?t=" ++ toString now,
   "../png/unknown.png?t=" ++ toString now,
   "png/unknown.png?t=" ++ toString now]

/-- Lines 95-103: probe the candidates in order, keep the first whose fetch
returns `ok`; a thrown fetch (`none`) is ignored and the next candidate is
tried. -/
def findCover (probe : String → Option Bool) : List String → Option String
  | [] => none
  | u :: rest => if probe u = some true then some u else findCover probe rest

/-- Lines 105-114: the record built from a successfully parsed metadata
document, with falsy-coalesced defaults for each optional field. -/
def buildEntry (env : ScanEnv) (base folder : String) (m : Metadata) : GameData :=
  { id := folder
  , name := jsOrS m.name folder
  , description := jsOrS m.description "No description available"
  , version := jsOrS m.version "1.0.0"
  , downloadUrl := jsOrS m.downloadUrl "#"
  , size := jsOrS m.size "Unknown"
  , cover := findCover env.cover (coverCandidates base folder env.now)
  , comingSoon := m.comingSoon.getD false }

/-- Lines 70-121 of `gamecode.js`: fetch `github.json`; a thrown fetch or
parse (`none`) or a non-`ok` status yields no entry; otherwise the entry is
assembled with defaults and the resolved cover. -/
def loadGameMetadata (bp : Option String) (env : ScanEnv) (folder : String) :
    Option GameData :=
  match env.meta (metadataUrl (baseUsed bp) folder env.now) with
  | none => none
  | some (ok, m) => if ok then some (buildEntry env (baseUsed bp) folder m) else none

/-- `text.split("\n")` on the underlying character list. -/
def splitLines : List Char → List (List Char)
  | [] => [[]]
  | c :: rest =>
      if c = '\n' then [] :: splitLines rest
      else
        match splitLines rest with
        | [] => [[c]]
        | piece :: pieces => (c :: piece) :: pieces

/-- `s.trim()`: drop whitespace from both ends of the character list. -/
def trimChars (cs : List Char) : List Char :=
  ((cs.dropWhile (fun c => c.isWhitespace)).reverse.dropWhile
    (fun c => c.isWhitespace)).reverse

/-- Line 26: `text.split(/\r?\n/).map(s => s.trim()).filter(Boolean)`.
Strings are processed as their character lists.  Splitting on LF and
trimming afterwards also removes the CR of a CRLF line ending, matching the
regex split. -/
def parseIndex (text : String) : List String :=
  ((splitLines text.data).map (fun l => String.mk (trimChars l))).filter
    (fun s => s != "")

/-- The identifier list produced by the index-file strategy (lines 20-27):
empty when the fetch throws or is not `ok`. -/
def idxFolderIds (env : ScanEnv) : List String :=
  match env.indexFile with
  | none => []
  | some (ok, text) => if ok then parseIndex text else []

/-- The identifier list produced by the GitHub API strategy (lines 40-46):
directory-typed items only; empty when the fetch throws or is not `ok`. -/
def apiFolderIds (env : ScanEnv) : List String :=
  match env.api with
  | none => []
  | some (ok, items) =>
      if ok then (items.filter (fun i => i.type == "dir")).map (fun i => i.name)
      else []

/-- Line 61: the hard-coded fallback list. -/
def fallbackGames : List String := ["mario"]

/-- Lines 15-68 of `gamecode.js`: try the index file, then the GitHub API,
then the fallback list.  Each strategy loads the metadata of every
identifier it produced and the scan returns as soon as the accumulated
entry list is non-empty (`if (this.games.length > 0) return`). -/
def scanGameFolders (env : ScanEnv) : List GameData :=
  let s1 := (idxFolderIds env).filterMap (loadGameMetadata init_basePath env)
  if s1.length > 0 then s1
  else
    let s2 := (apiFolderIds env).filterMap (loadGameMetadata init_basePath env)
    if s2.length > 0 then s2
    else fallbackGames.filterMap (loadGameMetadata init_basePath env)

/-- The spec-side discovery contract, written from the words of the spec:
the final identifier set equals the result of the first strategy, in
priority order, that returns a non-empty identifier list; empty if all
strategies return empty lists.  Used only to compare against the embedded
`scanGameFolders`. -/
def specDiscoveryIds (env : ScanEnv) : List String :=
  (([idxFolderIds env, apiFolderIds env, fallbackGames]).find?
    (fun l => !l.isEmpty)).getD []

/-- The identifiers of a strategy that survive loading: those whose
metadata document fetches and parses successfully. -/
def loadableIds (env : ScanEnv) (l : List String) : List String :=
  l.filter (fun f => (loadGameMetadata init_basePath env f).isSome)

/-- Whether the metadata fetch for `folder` (at the fixed base) fails:
either the fetch throws (`none`) or the response is not `ok`. -/
def metaFetchFails (env : ScanEnv) (folder : String) : Bool :=
  match env.meta (metadataUrl "games/" folder env.now) with
  | none => true
  | some (ok, _) => !ok

/-- One admin-panel record (`AdminPanel` variant of the entry, with an
embedded base64 `image` payload; `null` is `none`). -/
structure AdminGame where
  id : String
  name : String
  desc : String
  downloadUrl : String
  size : String
  version : String
  comingSoon : Bool
  image : Option String
deriving DecidableEq

/-- The admin form state read at the top of `saveGame` (lines 360-366):
the raw input values (empty string when blank) plus the selected image. -/
structure SaveForm where
  gameId : String
  gameName : String
  gameDesc : String
  gameUrl : String
  gameSize : String
  gameVersion : String
  comingSoon : Bool
  selectedImage : Option String
deriving DecidableEq

/-- Line 381: `this.selectedImage || (gameId && this.games.find(g => g.id
=== gameId)?.image) || null`, with JS truthiness on each alternative. -/
def savedImage (form : SaveForm) (games : List AdminGame) : Option String :=
  match jsNorm form.selectedImage with
  | some img => some img
  | none =>
      jsNorm (if form.gameId = "" then none
              else (games.find? (fun g => g.id == form.gameId)).bind AdminGame.image)

/-- Lines 373-382: the record assembled from the form.  `genId` models the
generated identifier string used when the id field is blank. -/
def mkNewGame (form : SaveForm) (genId : String) (games : List AdminGame) :
    AdminGame :=
  { id := if form.gameId = "" then genId else form.gameId
  , name := form.gameName
  , desc := form.gameDesc
  , downloadUrl := form.gameUrl
  , size := if form.gameSize = "" then "Unknown" else form.gameSize
  , version := form.gameVersion
  , comingSoon := form.comingSoon
  , image := savedImage form games }

/-- The user-visible notice emitted by `saveGame`. -/
inductive SaveAlert where
  | error (msg : String)
  | success (msg : String)
deriving DecidableEq

/-- The post-state of one `saveGame` call: the working list (`this.games`)
after the call, and the alert shown. -/
structure SaveOutcome where
  games : List AdminGame
  alert : SaveAlert
deriving DecidableEq

/-- Lines 384-391: the list mutation of a validated save.  `if (gameId)`
guards the in-place replacement (`findIndex` hit) — with a non-blank id that
has no hit the list is untouched — and only a blank id appends. -/
def savedList (form : SaveForm) (genId : String) (games : List AdminGame) :
    List AdminGame :=
  if form.gameId = "" then games ++ [mkNewGame form genId games]
  else
    match games.findIdx? (fun g => g.id == form.gameId) with
    | some idx => games.set idx (mkNewGame form genId games)
    | none => games

/-- Lines 359-398 of the admin script: validate the required fields, then
apply the list mutation; a success alert follows whenever validation
passed. -/
def saveGame (form : SaveForm) (genId : String) (games : List AdminGame) :
    SaveOutcome :=
  if form.gameName = "" ∨ form.gameDesc = "" ∨ form.gameUrl = "" then
    { games := games, alert := SaveAlert.error "Please fill all required fields (*)" }
  else
    { games := savedList form genId games
    , alert := SaveAlert.success ("Game \"" ++ form.gameName ++ "\" saved successfully!") }

/-- How one `deleteGame` call ends: cancelled at the confirmation prompt,
thrown (the JS TypeError raised while composing the success notice from an
absent record), or completed with the success notice. -/
inductive DeleteNotice where
  | cancelled
  | typeError (msg : String)
  | success (msg : String)
deriving DecidableEq

/-- Line 409: `` this.showAlert(`Game "${game.name}" deleted!`) `` where
`game` is the result of `find`; reading `.name` of `undefined` throws. -/
def noticeOf : Option AdminGame → DeleteNotice
  | none => DeleteNotice.typeError "Cannot read properties of undefined"
  | some g => DeleteNotice.success ("Game \"" ++ g.name ++ "\" deleted!")

/-- The post-state of one `deleteGame` call: the working list, whether the
persistence hand-off (`saveGamesJSON`) ran, and how the call ended. -/
structure DeleteOutcome where
  games : List AdminGame
  persisted : Bool
  notice : DeleteNotice
deriving DecidableEq

/-- Lines 400-410 of the admin script: after the confirmation, look the
record up, filter it out of the list, persist, then compose the success
notice from the looked-up record (which throws when it was absent). -/
def deleteGame (confirmed : Bool) (gameId : String) (games : List AdminGame) :
    DeleteOutcome :=
  if confirmed then
    { games := games.filter (fun g => g.id != gameId)
    , persisted := true
    , notice := noticeOf (games.find? (fun g => g.id == gameId)) }
  else
    { games := games, persisted := false, notice := DeleteNotice.cancelled }

/-- The three derived counters recomputed by `updateStats`. -/
structure Stats where
  total : Nat
  active : Nat
  comingSoon : Nat
deriving DecidableEq

/-- Lines 453-461 of the admin script. -/
def updateStats (games : List AdminGame) : Stats :=
  { total := games.length
  , active := (games.filter (fun g => !g.comingSoon)).length
  , comingSoon := (games.filter (fun g => g.comingSoon)).length }

/-- A loaded entry carries the identifier it was loaded for. -/
lemma loadGameMetadata_id (bp : Option String) (env : ScanEnv) (folder : String)
    (g : GameData) (h : loadGameMetadata bp env folder = some g) : g.id = folder := by
  unfold loadGameMetadata at h
  rcases henv : env.meta (metadataUrl (baseUsed bp) folder env.now) with _ | ⟨ok, m⟩ <;>
    rw [henv] at h
  · exact absurd h (by simp)
  · cases ok
    · simp at h
    · simp at h
      rw [← h]
      rfl

/-- The identifiers of the entries a strategy loads are exactly its folder
names restricted to those whose metadata loads. -/
lemma map_id_filterMap (env : ScanEnv) (l : List String) :
    (l.filterMap (loadGameMetadata init_basePath env)).map GameData.id =
      loadableIds env l := by
  induction l with
  | nil => rfl
  | cons f rest ih =>
    unfold loadableIds at ih ⊢
    rcases hf : loadGameMetadata init_basePath env f with _ | g
    · simp only [List.filterMap_cons_none hf, List.filter_cons, hf, Option.isSome_none,
        Bool.false_eq_true, if_false, ih]
    · simp only [List.filterMap_cons_some hf, List.map_cons, List.filter_cons, hf,
        Option.isSome_some, if_true, ih, loadGameMetadata_id _ env f g hf]

/-- Unfolding of `scanGameFolders` without the intermediate bindings. -/
lemma scanGameFolders_def (env : ScanEnv) :
    scanGameFolders env =
      (if ((idxFolderIds env).filterMap (loadGameMetadata init_basePath env)).length > 0
       then (idxFolderIds env).filterMap (loadGameMetadata init_basePath env)
       else if ((apiFolderIds env).filterMap (loadGameMetadata init_basePath env)).length > 0
         then (apiFolderIds env).filterMap (loadGameMetadata init_basePath env)
         else fallbackGames.filterMap (loadGameMetadata init_basePath env)) := rfl

/-- `findCover` is the first candidate whose probe returns a success. -/
lemma findCover_eq_find (probe : String → Option Bool) (l : List String) :
    findCover probe l = l.find? (fun u => probe u == some true) := by
  induction l with
  | nil => rfl
  | cons u rest ih =>
    unfold findCover
    by_cases h : probe u = some true
    · rw [if_pos h, List.find?_cons_of_pos _ (by simp [h])]
    · rw [if_neg h, List.find?_cons_of_neg _ (by simp [h]), ih]

/-- `findCover` only looks at the probes of the candidates themselves. -/
lemma findCover_congr (p q : String → Option Bool) (l : List String)
    (h : ∀ u ∈ l, p u = q u) : findCover p l = findCover q l := by
  induction l with
  | nil => rfl
  | cons u rest ih =>
    unfold findCover
    rw [h u (by simp)]
    by_cases hq : q u = some true
    · rw [if_pos hq, if_pos hq]
    · rw [if_neg hq, if_neg hq, ih (fun v hv => h v (by simp [hv]))]

/-- Filtering out an identifier that no record carries is a no-op. -/
lemma filter_eq_self_of_find_none (gameId : String) (games : List AdminGame)
    (h : games.find? (fun g => g.id == gameId) = none) :
    games.filter (fun g => g.id != gameId) = games := by
  rw [List.find?_eq_none] at h
  rw [List.filter_eq_self]
  intro g hg
  simpa using h g hg

/-- An environment where the index file lists `a` (whose metadata is
missing) while the GitHub API lists `b` (whose metadata loads). -/
def envC1 : ScanEnv :=
  { indexFile := some (true, "a")
  , api := some (true, [{ type := "dir", name := "b" }])
  , meta := fun url =>
      if url == "games/a/github.json?t=0" then some (false, mEmpty)
      else if url == "games/b/github.json?t=0" then some (true, mEmpty)
      else none
  , cover := fun _ => some false
  , now := 0 }

/-- Claim C1, counterexample: the index-file strategy is the first strategy
and returns the non-empty identifier list `["a"]`, yet the final identifier
set of the run is `["b"]` (from the GitHub API strategy), because the code
accepts a strategy only when at least one of its identifiers produced a
loaded entry — not when its raw identifier list is non-empty. -/
theorem scan_ids_not_first_nonempty_strategy :
    idxFolderIds envC1 = ["a"] ∧
    specDiscoveryIds envC1 = ["a"] ∧
    (scanGameFolders envC1).map GameData.id = ["b"] ∧
    (scanGameFolders envC1).map GameData.id ≠ specDiscoveryIds envC1 := by
  decide

/-- Claim C1 (amended): the final identifier list equals the folder list of
the first strategy — index file, then GitHub API, then the hard-coded
fallback — for which at least one folder loads successfully, restricted to
the folders that load; acceptance is by non-emptiness of the loaded
entries, not of the raw identifier list. -/
theorem scanGameFolders_first_loadable_strategy (env : ScanEnv) :
    (scanGameFolders env).map GameData.id =
      (if loadableIds env (idxFolderIds env) ≠ [] then loadableIds env (idxFolderIds env)
       else if loadableIds env (apiFolderIds env) ≠ [] then loadableIds env (apiFolderIds env)
       else loadableIds env fallbackGames) := by
  have h1 := map_id_filterMap env (idxFolderIds env)
  have h2 := map_id_filterMap env (apiFolderIds env)
  have h3 := map_id_filterMap env fallbackGames
  rw [scanGameFolders_def]
  by_cases hA : (idxFolderIds env).filterMap (loadGameMetadata init_basePath env) = []
  · have hA2 : loadableIds env (idxFolderIds env) = [] := by
      rw [← h1, hA, List.map_nil]
    have hAn : ¬ (loadableIds env (idxFolderIds env) ≠ []) := by simp [hA2]
    have hAlen :
        ¬ (((idxFolderIds env).filterMap (loadGameMetadata init_basePath env)).length > 0) := by
      simp [hA]
    rw [if_neg hAn, if_neg hAlen]
    by_cases hB : (apiFolderIds env).filterMap (loadGameMetadata init_basePath env) = []
    · have hB2 : loadableIds env (apiFolderIds env) = [] := by
        rw [← h2, hB, List.map_nil]
      have hBn : ¬ (loadableIds env (apiFolderIds env) ≠ []) := by simp [hB2]
      have hBlen :
          ¬ (((apiFolderIds env).filterMap (loadGameMetadata init_basePath env)).length > 0) := by
        simp [hB]
      rw [if_neg hBn, if_neg hBlen]
      exact h3
    · have hB2 : loadableIds env (apiFolderIds env) ≠ [] := by
        rw [← h2]
        intro hh
        exact hB (List.map_eq_nil_iff.mp hh)
      have hBlen :
          ((apiFolderIds env).filterMap (loadGameMetadata init_basePath env)).length > 0 :=
        List.length_pos.mpr hB
      rw [if_pos hB2, if_pos hBlen]
      exact h2
  · have hA2 : loadableIds env (idxFolderIds env) ≠ [] := by
      rw [← h1]
      intro hh
      exact hA (List.map_eq_nil_iff.mp hh)
    have hAlen :
        ((idxFolderIds env).filterMap (loadGameMetadata init_basePath env)).length > 0 :=
      List.length_pos.mpr hA
    rw [if_pos hA2, if_pos hAlen]
    exact h1

/-- An environment in which every metadata fetch under the fixed base
`games/` fails, while the same document under the alternative relative
prefix `game/` would be retrievable. -/
def envC2 : ScanEnv :=
  { indexFile := none
  , api := none
  , meta := fun url =>
      if url == "game/mario/github.json?t=0" then some (true, mEmpty)
      else if url == "games/mario/github.json?t=0" then some (false, mEmpty)
      else none
  , cover := fun _ => some false
  , now := 0 }

/-- Claim C2, counterexample: there is no base-path candidate probing.
`init` fixes the single base `games/`; in `envC2` every probe under that
base fails and the run ends empty, even though the alternative prefix
`game/` would have yielded a successful probe — which the claimed
candidate-trying behaviour would have fixed as the base. -/
theorem base_path_single_candidate :
    baseUsed init_basePath = "games/" ∧
    scanGameFolders envC2 = [] ∧
    loadGameMetadata (some "game/") envC2 "mario" =
      some (buildEntry envC2 "game/" "mario" mEmpty) := by
  decide

/-- Claim C2 (amended): the base path is the constant `games/`, assigned
unconditionally by `init` (with `loadGameMetadata` falling back to the same
constant when it is unset), and every entry load consults only the
metadata URL and cover-candidate URLs formed from that fixed base: two runs
whose fetch oracles agree on those URLs load identically, whatever the
oracles do elsewhere. -/
theorem load_uses_fixed_base (env1 env2 : ScanEnv) (folder : String)
    (hnow : env1.now = env2.now)
    (hmeta : env1.meta (metadataUrl "games/" folder env1.now) =
             env2.meta (metadataUrl "games/" folder env2.now))
    (hcover : ∀ u ∈ coverCandidates "games/" folder env1.now,
      env1.cover u = env2.cover u) :
    baseUsed init_basePath = "games/" ∧
    loadGameMetadata init_basePath env1 folder =
      loadGameMetadata init_basePath env2 folder := by
  refine ⟨rfl, ?_⟩
  have hb : baseUsed init_basePath = "games/" := rfl
  rw [← hnow] at hmeta
  unfold loadGameMetadata
  rw [hb, ← hnow, ← hmeta]
  rcases hm : env1.meta (metadataUrl "games/" folder env1.now) with _ | ⟨ok, m⟩
  · rfl
  · cases ok
    · rfl
    · show some (buildEntry env1 "games/" folder m) = some (buildEntry env2 "games/" folder m)
      have hc : findCover env1.cover (coverCandidates "games/" folder env1.now) =
          findCover env2.cover (coverCandidates "games/" folder env1.now) :=
        findCover_congr _ _ _ hcover
      unfold buildEntry
      rw [← hnow, hc]

/-- First oracle for the witness of `load_uses_fixed_base`. -/
def envW1 : ScanEnv :=
  { indexFile := some (true, "ignored")
  , api := none
  , meta := fun url => if url == "games/x/github.json?t=5" then some (true, mEmpty) else none
  , cover := fun _ => some false
  , now := 5 }

/-- Second oracle for the witness of `load_uses_fixed_base`: differs from
`envW1` everywhere except on the URLs under the fixed base. -/
def envW2 : ScanEnv :=
  { indexFile := none
  , api := some (false, [])
  , meta := fun url =>
      if url == "games/x/github.json?t=5" then some (true, mEmpty)
      else some (false, mEmpty)
  , cover := fun _ => some false
  , now := 5 }

/-- Claim C2, witness for `load_uses_fixed_base` at a concrete input. -/
theorem load_uses_fixed_base_witness :
    baseUsed init_basePath = "games/" ∧
    loadGameMetadata init_basePath envW1 "x" =
      loadGameMetadata init_basePath envW2 "x" :=
  load_uses_fixed_base envW1 envW2 "x" rfl (by decide) (by decide)

/-- A valid form whose non-blank identifier appears in no record. -/
def formGhost : SaveForm :=
  { gameId := "ghost", gameName := "N", gameDesc := "D", gameUrl := "U"
  , gameSize := "", gameVersion := "1.0.0", comingSoon := false
  , selectedImage := none }

/-- Claim C3, counterexample: a save that passes validation and whose
identifier `ghost` was never seen in the (empty) working list appends
nothing — the list stays empty — and a success notice is shown anyway.
Only a blank identifier appends; a non-blank unseen identifier falls
through both branches of the upsert. -/
theorem save_unseen_nonempty_id_not_appended :
    saveGame formGhost "g123" [] =
      { games := [], alert := SaveAlert.success "Game \"N\" saved successfully!" } := by
  decide

/-- Claim C3 (amended): for a validated save, a blank form identifier
appends the new record; a non-blank identifier present in the list
replaces the first record carrying it in place, leaving every other
position unchanged; a non-blank identifier absent from the list leaves the
list unchanged (while still reporting success). -/
theorem saveGame_upsert (form : SaveForm) (genId : String) (games : List AdminGame)
    (hv : ¬(form.gameName = "" ∨ form.gameDesc = "" ∨ form.gameUrl = "")) :
    (form.gameId = "" →
      saveGame form genId games =
        { games := games ++ [mkNewGame form genId games]
        , alert := SaveAlert.success
            ("Game \"" ++ form.gameName ++ "\" saved successfully!") }) ∧
    (∀ idx : Nat, form.gameId ≠ "" →
      games.findIdx? (fun g => g.id == form.gameId) = some idx →
      saveGame form genId games =
        { games := games.set idx (mkNewGame form genId games)
        , alert := SaveAlert.success
            ("Game \"" ++ form.gameName ++ "\" saved successfully!") } ∧
      ∀ j : Nat, j ≠ idx →
        (games.set idx (mkNewGame form genId games))[j]? = games[j]?) ∧
    (form.gameId ≠ "" →
      games.findIdx? (fun g => g.id == form.gameId) = none →
      saveGame form genId games =
        { games := games
        , alert := SaveAlert.success
            ("Game \"" ++ form.gameName ++ "\" saved successfully!") }) := by
  refine ⟨?_, ?_, ?_⟩
  · intro h0
    unfold saveGame savedList
    rw [if_neg hv, if_pos h0]
  · intro idx hne hidx
    constructor
    · unfold saveGame savedList
      rw [if_neg hv, if_neg hne, hidx]
    · intro j hj
      exact List.getElem?_set_ne (Ne.symm hj)
  · intro hne hidx
    unfold saveGame savedList
    rw [if_neg hv, if_neg hne, hidx]

/-- A concrete record for the witnesses. -/
def gA : AdminGame :=
  { id := "a", name := "AN", desc := "AD", downloadUrl := "AU", size := "AS"
  , version := "1.0.0", comingSoon := false, image := none }

/-- A second concrete record for the witnesses. -/
def gB : AdminGame := { gA with id := "b", name := "BN" }

/-- A valid form editing the record with identifier `a`. -/
def formEditA : SaveForm :=
  { gameId := "a", gameName := "N2", gameDesc := "D2", gameUrl := "U2"
  , gameSize := "S2", gameVersion := "2.0.0", comingSoon := true
  , selectedImage := none }

/-- Claim C3, witness for `saveGame_upsert` at a concrete input (in-place
replacement of the first record). -/
theorem saveGame_upsert_witness :
    saveGame formEditA "gen" [gA, gB] =
      { games := [gA, gB].set 0 (mkNewGame formEditA "gen" [gA, gB])
      , alert := SaveAlert.success "Game \"N2\" saved successfully!" } :=
  ((saveGame_upsert formEditA "gen" [gA, gB] (by decide)).2.1 0 (by decide) (by decide)).1

/-- Claim C4: a save whose required name, description or download-target
field is empty is rejected with the user-visible message and the working
list is returned exactly as it was — the validation check precedes every
mutation. -/
theorem saveGame_rejects_missing_required (form : SaveForm) (genId : String)
    (games : List AdminGame)
    (h : form.gameName = "" ∨ form.gameDesc = "" ∨ form.gameUrl = "") :
    saveGame form genId games =
      { games := games
      , alert := SaveAlert.error "Please fill all required fields (*)" } := by
  unfold saveGame
  rw [if_pos h]

/-- Claim C4, witness for `saveGame_rejects_missing_required` at a concrete
input (empty description). -/
theorem saveGame_rejects_missing_required_witness :
    saveGame
      { gameId := "", gameName := "N", gameDesc := "", gameUrl := "U"
      , gameSize := "", gameVersion := "1.0.0", comingSoon := false
      , selectedImage := none } "gen" [gA] =
      { games := [gA]
      , alert := SaveAlert.error "Please fill all required fields (*)" } :=
  saveGame_rejects_missing_required _ "gen" [gA] (Or.inr (Or.inl rfl))

/-- Claim C5: whenever the metadata document fetches and parses
successfully, an entry is produced from it, and each optional field that is
missing takes exactly its documented default: description becomes the
placeholder, version `1.0.0`, downloadUrl `#`, size `Unknown`, comingSoon
`false`, and the name falls back to the identifier. -/
theorem loadGameMetadata_defaults (env : ScanEnv) (folder : String) (m : Metadata)
    (h : env.meta (metadataUrl "games/" folder env.now) = some (true, m)) :
    loadGameMetadata init_basePath env folder = some (buildEntry env "games/" folder m) ∧
    (m.name = none → (buildEntry env "games/" folder m).name = folder) ∧
    (m.description = none →
      (buildEntry env "games/" folder m).description = "No description available") ∧
    (m.version = none → (buildEntry env "games/" folder m).version = "1.0.0") ∧
    (m.downloadUrl = none → (buildEntry env "games/" folder m).downloadUrl = "#") ∧
    (m.size = none → (buildEntry env "games/" folder m).size = "Unknown") ∧
    (m.comingSoon = none → (buildEntry env "games/" folder m).comingSoon = false) := by
  constructor
  · unfold loadGameMetadata
    have hb : baseUsed init_basePath = "games/" := rfl
    rw [hb, h]
    rfl
  · refine ⟨?_, ?_, ?_, ?_, ?_, ?_⟩ <;> intro hm <;> simp [buildEntry, jsOrS, hm]

/-- An environment where only the metadata document of folder `m` exists
and every cover probe throws. -/
def envC5 : ScanEnv :=
  { indexFile := none
  , api := none
  , meta := fun url => if url == "games/m/github.json?t=0" then some (true, mEmpty) else none
  , cover := fun _ => none
  , now := 0 }

/-- Claim C5, witness for `loadGameMetadata_defaults` at a concrete input:
an all-missing metadata document produces the all-default entry. -/
theorem loadGameMetadata_defaults_witness :
    loadGameMetadata init_basePath envC5 "m" = some (buildEntry envC5 "games/" "m" mEmpty) ∧
    (buildEntry envC5 "games/" "m" mEmpty).name = "m" ∧
    (buildEntry envC5 "games/" "m" mEmpty).description = "No description available" ∧
    (buildEntry envC5 "games/" "m" mEmpty).version = "1.0.0" ∧
    (buildEntry envC5 "games/" "m" mEmpty).downloadUrl = "#" ∧
    (buildEntry envC5 "games/" "m" mEmpty).size = "Unknown" ∧
    (buildEntry envC5 "games/" "m" mEmpty).comingSoon = false := by
  have t := loadGameMetadata_defaults envC5 "m" mEmpty (by decide)
  exact ⟨t.1, t.2.1 rfl, t.2.2.1 rfl, t.2.2.2.1 rfl, t.2.2.2.2.1 rfl,
    t.2.2.2.2.2.1 rfl, t.2.2.2.2.2.2 rfl⟩

/-- Claim C6: when the metadata fetch for an identifier throws or returns a
non-success status, no entry is produced for it, and the batch over the
remaining identifiers is exactly the batch without it — one failed entry
never affects the rest. -/
theorem loadGameMetadata_failure_skips_entry (env : ScanEnv) (folder : String)
    (rest : List String) (h : metaFetchFails env folder = true) :
    loadGameMetadata init_basePath env folder = none ∧
    (folder :: rest).filterMap (loadGameMetadata init_basePath env) =
      rest.filterMap (loadGameMetadata init_basePath env) := by
  have hnone : loadGameMetadata init_basePath env folder = none := by
    unfold loadGameMetadata
    unfold metaFetchFails at h
    have hb : baseUsed init_basePath = "games/" := rfl
    rw [hb]
    rcases hm : env.meta (metadataUrl "games/" folder env.now) with _ | ⟨ok, m⟩
    · rfl
    · rw [hm] at h
      cases ok
      · rfl
      · simp at h
  exact ⟨hnone, List.filterMap_cons_none hnone⟩

/-- An environment where the metadata of `x` exists but is a non-success
response, while the metadata of `y` loads. -/
def envC6 : ScanEnv :=
  { indexFile := none
  , api := none
  , meta := fun url =>
      if url == "games/x/github.json?t=0" then some (false, mEmpty)
      else if url == "games/y/github.json?t=0" then some (true, mEmpty)
      else none
  , cover := fun _ => some false
  , now := 0 }

/-- Claim C6, witness for `loadGameMetadata_failure_skips_entry` at a
concrete input. -/
theorem loadGameMetadata_failure_skips_entry_witness :
    loadGameMetadata init_basePath envC6 "x" = none ∧
    ["x", "y"].filterMap (loadGameMetadata init_basePath envC6) =
      ["y"].filterMap (loadGameMetadata init_basePath envC6) :=
  loadGameMetadata_failure_skips_entry envC6 "x" ["y"] (by decide)

/-- Claim C7: once the metadata document loads, the produced entry always
exists (cover resolution never fails the construction), its cover is the
first candidate URL, in list order, whose probe returns a success status,
and when no candidate succeeds — thrown probes included — the cover is
absent. -/
theorem cover_resolution_first_success (env : ScanEnv) (folder : String) (m : Metadata)
    (h : env.meta (metadataUrl "games/" folder env.now) = some (true, m)) :
    loadGameMetadata init_basePath env folder = some (buildEntry env "games/" folder m) ∧
    (buildEntry env "games/" folder m).cover =
      (coverCandidates "games/" folder env.now).find? (fun u => env.cover u == some true) ∧
    ((∀ u ∈ coverCandidates "games/" folder env.now, env.cover u ≠ some true) →
      (buildEntry env "games/" folder m).cover = none) := by
  have h2 : (buildEntry env "games/" folder m).cover =
      (coverCandidates "games/" folder env.now).find? (fun u => env.cover u == some true) :=
    findCover_eq_find _ _
  refine ⟨?_, h2, ?_⟩
  · unfold loadGameMetadata
    have hb : baseUsed init_basePath = "games/" := rfl
    rw [hb, h]
    rfl
  · intro hall
    rw [h2, List.find?_eq_none]
    intro u hu
    simpa using hall u hu

/-- An environment where the metadata of `m` loads and every cover probe
throws. -/
def envC7 : ScanEnv :=
  { indexFile := none
  , api := none
  , meta := fun url => if url == "games/m/github.json?t=7" then some (true, mEmpty) else none
  , cover := fun _ => none
  , now := 7 }

/-- Claim C7, witness for `cover_resolution_first_success` at a concrete
input: every probe throws, the entry is still produced, its cover absent. -/
theorem cover_resolution_first_success_witness :
    loadGameMetadata init_basePath envC7 "m" = some (buildEntry envC7 "games/" "m" mEmpty) ∧
    (buildEntry envC7 "games/" "m" mEmpty).cover = none := by
  have t := cover_resolution_first_success envC7 "m" mEmpty (by decide)
  exact ⟨t.1, t.2.2 (by decide)⟩

/-- An environment whose index file holds the body of the spec scenario
and whose two identifiers both load. -/
def envC8 : ScanEnv :=
  { indexFile := some (true, "a\n\nb\n")
  , api := none
  , meta := fun url =>
      if url == "games/a/github.json?t=0" || url == "games/b/github.json?t=0"
      then some (true, mEmpty)
      else none
  , cover := fun _ => some false
  , now := 0 }

/-- Claim C8: the index body is split on line breaks, each line trimmed and
empty lines dropped; the body of the spec scenario resolves to exactly
`a` and `b` (blank line and trailing newline dropped), likewise with CRLF
endings and surrounding whitespace, and the full scan over that index
yields exactly those identifiers. -/
theorem index_parse_behavior :
    parseIndex "a\n\nb\n" = ["a", "b"] ∧
    parseIndex " a \r\n\r\n b\r\n" = ["a", "b"] ∧
    idxFolderIds envC8 = ["a", "b"] ∧
    (scanGameFolders envC8).map GameData.id = ["a", "b"] := by
  decide

/-- Claim C9: the derived counters partition the working list — the total
equals the not-coming-soon count plus the coming-soon count — and each
record added to the list increments exactly one of the two counters,
according to its `comingSoon` field. -/
theorem updateStats_partition :
    (∀ games : List AdminGame,
      (updateStats games).total = (updateStats games).active + (updateStats games).comingSoon) ∧
    (∀ (g : AdminGame) (games : List AdminGame),
      ((updateStats (g :: games)).active = (updateStats games).active + 1 ∧
        (updateStats (g :: games)).comingSoon = (updateStats games).comingSoon) ∨
      ((updateStats (g :: games)).active = (updateStats games).active ∧
        (updateStats (g :: games)).comingSoon = (updateStats games).comingSoon + 1)) := by
  constructor
  · intro games
    induction games with
    | nil => rfl
    | cons g rest ih =>
      cases hg : g.comingSoon <;>
        simp [updateStats, List.filter_cons, hg] at ih ⊢ <;>
        omega
  · intro g games
    cases hg : g.comingSoon
    · left
      constructor <;> simp [updateStats, List.filter_cons, hg]
    · right
      constructor <;> simp [updateStats, List.filter_cons, hg]

/-- Claim C10: a confirmed delete whose identifier is carried by no record
leaves the working list unchanged (the filter removes nothing) and still
runs the persistence hand-off, but then throws the TypeError raised while
composing the success notice from the absent record, instead of completing
normally. -/
theorem deleteGame_absent_id_throws_after_persist (gameId : String)
    (games : List AdminGame)
    (h : games.find? (fun g => g.id == gameId) = none) :
    deleteGame true gameId games =
      { games := games
      , persisted := true
      , notice := DeleteNotice.typeError "Cannot read properties of undefined" } := by
  have hfilter : games.filter (fun g => g.id != gameId) = games :=
    filter_eq_self_of_find_none gameId games h
  have hstep : deleteGame true gameId games =
      { games := games.filter (fun g => g.id != gameId)
      , persisted := true
      , notice := noticeOf (games.find? (fun g => g.id == gameId)) } := rfl
  rw [hstep, hfilter, h]
  rfl

/-- Claim C10, witness for `deleteGame_absent_id_throws_after_persist` at a
concrete input. -/
theorem deleteGame_absent_id_throws_after_persist_witness :
    deleteGame true "zz" [gA] =
      { games := [gA]
      , persisted := true
      , notice := DeleteNotice.typeError "Cannot read properties of undefined" } :=
  deleteGame_absent_id_throws_after_persist "zz" [gA] (by decide)
